import Mathlib

/-!
Shallow embedding of `src/octavia_lib/api/drivers/provider_base.py`.

The file declares the abstract provider driver contract of octavia-lib: the
class `ProviderDriver`, whose only attribute is the class attribute
`name = None` and whose 28 methods are stubs that unconditionally raise
`exceptions.NotImplementedError(user_fault_string=..., operator_fault_string=...)`.

Each Python method is embedded in state-passing style: the method takes the
value of `self` and its arguments and yields a `Call` record holding the
outcome (a raised fault or a returned value) together with the post-call
values of `self` and of the argument tuple.  A `raise` statement terminates
the call without assigning to `self` or to any argument, so every stub below
yields its inputs unchanged, exactly as the source bodies do.

Docstring-level contract data (the `:return:` / `:returns:` and
`:raises ... NotFound:` lines, and the documented metadata dictionary keys)
is embedded as tables over an enumeration `OpName` of the declared
operations, translated line by line from the docstrings in the source.
-/

set_option autoImplicit false

/-- Python runtime values, as far as this interface manipulates them:
`None`, booleans, integers, strings, lists and string-keyed dictionaries.
Domain objects (load balancers, listeners, pools, ...) are opaque to this
file and are represented by arbitrary such values. -/
inductive PyVal where
  | none
  | bool (b : Bool)
  | int (n : Int)
  | str (s : String)
  | list (items : List PyVal)
  | dict (entries : List (String × PyVal))

/-- Modelled from the spec: the four fault kinds of the driver exceptions
module (`octavia_lib/api/drivers/exceptions.py`, which is not among the
given source files).  Section 7 of the design document lists
unsupported-operation (`NotImplementedError`), unsupported-option
(`UnsupportedOptionError`), not-found (`NotFound`) and driver-error
(`DriverError`) as the fault taxonomy. -/
inductive FaultKind where
  | notImplementedError
  | unsupportedOptionError
  | notFound
  | driverError
  deriving DecidableEq, Repr

/-- A raised driver fault: its kind together with the user-facing and the
operator-facing fault strings the raise sites in the source supply. -/
structure Raised where
  kind : FaultKind
  user_fault_string : String
  operator_fault_string : String
  deriving DecidableEq, Repr

namespace exceptions

/-- The constructor call
`exceptions.NotImplementedError(user_fault_string=..., operator_fault_string=...)`
as used by every raise site in `provider_base.py`. -/
def NotImplementedError (user_fault_string operator_fault_string : String) :
    Raised :=
  { kind := FaultKind.notImplementedError,
    user_fault_string := user_fault_string,
    operator_fault_string := operator_fault_string }

end exceptions

/-- The state of a `ProviderDriver` instance.  The class body declares a
single attribute, the class attribute `name` (reserved for internal Octavia
use); no method introduces any other attribute. -/
structure ProviderDriver where
  name : PyVal

/-- A freshly constructed `ProviderDriver()`: the class attribute is
`name = None` (line 23 of the source). -/
def ProviderDriver.new : ProviderDriver :=
  { name := PyVal.none }

/-- The result of one Python method call in state-passing style: the
outcome (a raised `Raised` fault, or a normal return of type `α`) together
with the post-call value of `self` and of the tuple `σ` of arguments. -/
structure Call (σ α : Type) where
  outcome : Except Raised α
  post_self : ProviderDriver
  post_args : σ

/-- `create_vip_port(self, loadbalancer_id, project_id, vip_dictionary,
additional_vip_dicts)`, source lines 26-61.  The docstring documents the
success output `(vip_dict, additional_vip_dicts)`; the body is a single
raise of the unsupported-operation fault. -/
def ProviderDriver.create_vip_port (self : ProviderDriver)
    (loadbalancer_id project_id : String) (vip_dictionary : PyVal)
    (additional_vip_dicts : List PyVal) :
    Call (String × String × PyVal × List PyVal) (PyVal × List PyVal) :=
  { outcome := Except.error (exceptions.NotImplementedError
      "This provider does not support creating VIP ports."
      "This provider does not support creating VIP ports. Octavia will create it."),
    post_self := self,
    post_args := (loadbalancer_id, project_id, vip_dictionary, additional_vip_dicts) }

/-- `loadbalancer_create(self, loadbalancer)`, source lines 63-78. -/
def ProviderDriver.loadbalancer_create (self : ProviderDriver)
    (loadbalancer : PyVal) : Call PyVal Unit :=
  { outcome := Except.error (exceptions.NotImplementedError
      "This provider does not support creating load balancers."
      "This provider does not support creating load balancers. What?"),
    post_self := self,
    post_args := loadbalancer }

/-- `loadbalancer_delete(self, loadbalancer, cascade=False)`, source lines
80-96. -/
def ProviderDriver.loadbalancer_delete (self : ProviderDriver)
    (loadbalancer : PyVal) (cascade : Bool) : Call (PyVal × Bool) Unit :=
  { outcome := Except.error (exceptions.NotImplementedError
      "This provider does not support deleting load balancers."
      "This provider does not support deleting load balancers."),
    post_self := self,
    post_args := (loadbalancer, cascade) }

/-- `loadbalancer_failover(self, loadbalancer_id)`, source lines 98-111. -/
def ProviderDriver.loadbalancer_failover (self : ProviderDriver)
    (loadbalancer_id : String) : Call String Unit :=
  { outcome := Except.error (exceptions.NotImplementedError
      "This provider does not support failing over load balancers."
      "This provider does not support failing over load balancers."),
    post_self := self,
    post_args := loadbalancer_id }

/-- `loadbalancer_update(self, old_loadbalancer, new_loadbalancer)`, source
lines 113-130. -/
def ProviderDriver.loadbalancer_update (self : ProviderDriver)
    (old_loadbalancer new_loadbalancer : PyVal) : Call (PyVal × PyVal) Unit :=
  { outcome := Except.error (exceptions.NotImplementedError
      "This provider does not support updating load balancers."
      "This provider does not support updating load balancers."),
    post_self := self,
    post_args := (old_loadbalancer, new_loadbalancer) }

/-- `listener_create(self, listener)`, source lines 133-148. -/
def ProviderDriver.listener_create (self : ProviderDriver)
    (listener : PyVal) : Call PyVal Unit :=
  { outcome := Except.error (exceptions.NotImplementedError
      "This provider does not support creating listeners."
      "This provider does not support creating listeners."),
    post_self := self,
    post_args := listener }

/-- `listener_delete(self, listener)`, source lines 150-163. -/
def ProviderDriver.listener_delete (self : ProviderDriver)
    (listener : PyVal) : Call PyVal Unit :=
  { outcome := Except.error (exceptions.NotImplementedError
      "This provider does not support deleting listeners."
      "This provider does not support deleting listeners."),
    post_self := self,
    post_args := listener }

/-- `listener_update(self, old_listener, new_listener)`, source lines
165-182. -/
def ProviderDriver.listener_update (self : ProviderDriver)
    (old_listener new_listener : PyVal) : Call (PyVal × PyVal) Unit :=
  { outcome := Except.error (exceptions.NotImplementedError
      "This provider does not support updating listeners."
      "This provider does not support updating listeners."),
    post_self := self,
    post_args := (old_listener, new_listener) }

/-- `pool_create(self, pool)`, source lines 185-200. -/
def ProviderDriver.pool_create (self : ProviderDriver)
    (pool : PyVal) : Call PyVal Unit :=
  { outcome := Except.error (exceptions.NotImplementedError
      "This provider does not support creating pools."
      "This provider does not support creating pools."),
    post_self := self,
    post_args := pool }

/-- `pool_delete(self, pool)`, source lines 202-215. -/
def ProviderDriver.pool_delete (self : ProviderDriver)
    (pool : PyVal) : Call PyVal Unit :=
  { outcome := Except.error (exceptions.NotImplementedError
      "This provider does not support deleting pools."
      "This provider does not support deleting pools."),
    post_self := self,
    post_args := pool }

/-- `pool_update(self, old_pool, new_pool)`, source lines 217-234. -/
def ProviderDriver.pool_update (self : ProviderDriver)
    (old_pool new_pool : PyVal) : Call (PyVal × PyVal) Unit :=
  { outcome := Except.error (exceptions.NotImplementedError
      "This provider does not support updating pools."
      "This provider does not support updating pools."),
    post_self := self,
    post_args := (old_pool, new_pool) }

/-- `member_create(self, member)`, source lines 237-252. -/
def ProviderDriver.member_create (self : ProviderDriver)
    (member : PyVal) : Call PyVal Unit :=
  { outcome := Except.error (exceptions.NotImplementedError
      "This provider does not support creating members."
      "This provider does not support creating members."),
    post_self := self,
    post_args := member }

/-- `member_delete(self, member)`, source lines 254-267. -/
def ProviderDriver.member_delete (self : ProviderDriver)
    (member : PyVal) : Call PyVal Unit :=
  { outcome := Except.error (exceptions.NotImplementedError
      "This provider does not support deleting members."
      "This provider does not support deleting members."),
    post_self := self,
    post_args := member }

/-- `member_update(self, old_member, new_member)`, source lines 269-286. -/
def ProviderDriver.member_update (self : ProviderDriver)
    (old_member new_member : PyVal) : Call (PyVal × PyVal) Unit :=
  { outcome := Except.error (exceptions.NotImplementedError
      "This provider does not support updating members."
      "This provider does not support updating members."),
    post_self := self,
    post_args := (old_member, new_member) }

/-- `member_batch_update(self, pool_id, members)`, source lines 288-305. -/
def ProviderDriver.member_batch_update (self : ProviderDriver)
    (pool_id : String) (members : List PyVal) :
    Call (String × List PyVal) Unit :=
  { outcome := Except.error (exceptions.NotImplementedError
      "This provider does not support batch updating members."
      "This provider does not support batch updating members."),
    post_self := self,
    post_args := (pool_id, members) }

/-- `health_monitor_create(self, healthmonitor)`, source lines 308-323. -/
def ProviderDriver.health_monitor_create (self : ProviderDriver)
    (healthmonitor : PyVal) : Call PyVal Unit :=
  { outcome := Except.error (exceptions.NotImplementedError
      "This provider does not support creating health monitors."
      "This provider does not support creating health monitors."),
    post_self := self,
    post_args := healthmonitor }

/-- `health_monitor_delete(self, healthmonitor)`, source lines 325-338. -/
def ProviderDriver.health_monitor_delete (self : ProviderDriver)
    (healthmonitor : PyVal) : Call PyVal Unit :=
  { outcome := Except.error (exceptions.NotImplementedError
      "This provider does not support deleting health monitors."
      "This provider does not support deleting health monitors."),
    post_self := self,
    post_args := healthmonitor }

/-- `health_monitor_update(self, old_healthmonitor, new_healthmonitor)`,
source lines 340-357. -/
def ProviderDriver.health_monitor_update (self : ProviderDriver)
    (old_healthmonitor new_healthmonitor : PyVal) :
    Call (PyVal × PyVal) Unit :=
  { outcome := Except.error (exceptions.NotImplementedError
      "This provider does not support updating health monitors."
      "This provider does not support updating health monitors."),
    post_self := self,
    post_args := (old_healthmonitor, new_healthmonitor) }

/-- `l7policy_create(self, l7policy)`, source lines 360-375. -/
def ProviderDriver.l7policy_create (self : ProviderDriver)
    (l7policy : PyVal) : Call PyVal Unit :=
  { outcome := Except.error (exceptions.NotImplementedError
      "This provider does not support creating l7policies."
      "This provider does not support creating l7policies."),
    post_self := self,
    post_args := l7policy }

/-- `l7policy_delete(self, l7policy)`, source lines 377-390. -/
def ProviderDriver.l7policy_delete (self : ProviderDriver)
    (l7policy : PyVal) : Call PyVal Unit :=
  { outcome := Except.error (exceptions.NotImplementedError
      "This provider does not support deleting l7policies."
      "This provider does not support deleting l7policies."),
    post_self := self,
    post_args := l7policy }

/-- `l7policy_update(self, old_l7policy, new_l7policy)`, source lines
392-409. -/
def ProviderDriver.l7policy_update (self : ProviderDriver)
    (old_l7policy new_l7policy : PyVal) : Call (PyVal × PyVal) Unit :=
  { outcome := Except.error (exceptions.NotImplementedError
      "This provider does not support updating l7policies."
      "This provider does not support updating l7policies."),
    post_self := self,
    post_args := (old_l7policy, new_l7policy) }

/-- `l7rule_create(self, l7rule)`, source lines 412-427. -/
def ProviderDriver.l7rule_create (self : ProviderDriver)
    (l7rule : PyVal) : Call PyVal Unit :=
  { outcome := Except.error (exceptions.NotImplementedError
      "This provider does not support creating l7rules."
      "This provider does not support creating l7rules."),
    post_self := self,
    post_args := l7rule }

/-- `l7rule_delete(self, l7rule)`, source lines 429-442. -/
def ProviderDriver.l7rule_delete (self : ProviderDriver)
    (l7rule : PyVal) : Call PyVal Unit :=
  { outcome := Except.error (exceptions.NotImplementedError
      "This provider does not support deleting l7rules."
      "This provider does not support deleting l7rules."),
    post_self := self,
    post_args := l7rule }

/-- `l7rule_update(self, old_l7rule, new_l7rule)`, source lines 444-461. -/
def ProviderDriver.l7rule_update (self : ProviderDriver)
    (old_l7rule new_l7rule : PyVal) : Call (PyVal × PyVal) Unit :=
  { outcome := Except.error (exceptions.NotImplementedError
      "This provider does not support updating l7rules."
      "This provider does not support updating l7rules."),
    post_self := self,
    post_args := (old_l7rule, new_l7rule) }

/-- `get_supported_flavor_metadata(self)`, source lines 464-478.  The
docstring documents the success output as the flavor metadata dictionary,
including the keys name and description. -/
def ProviderDriver.get_supported_flavor_metadata (self : ProviderDriver) :
    Call Unit PyVal :=
  { outcome := Except.error (exceptions.NotImplementedError
      "This provider does not support getting the supported flavor metadata."
      "This provider does not support getting the supported flavor metadata."),
    post_self := self,
    post_args := () }

/-- `validate_flavor(self, flavor_metadata)`, source lines 480-497.  The
only docstring in the file whose `:raises:` lines include
`octavia_lib.api.drivers.exceptions.NotFound`. -/
def ProviderDriver.validate_flavor (self : ProviderDriver)
    (flavor_metadata : PyVal) : Call PyVal Unit :=
  { outcome := Except.error (exceptions.NotImplementedError
      "This provider does not support validating flavors."
      "This provider does not support validating the supported flavor metadata."),
    post_self := self,
    post_args := flavor_metadata }

/-- `get_supported_availability_zone_metadata(self)`, source lines 500-514.
The docstring documents the success output as the availability zone
metadata dictionary, including the keys name and description. -/
def ProviderDriver.get_supported_availability_zone_metadata
    (self : ProviderDriver) : Call Unit PyVal :=
  { outcome := Except.error (exceptions.NotImplementedError
      "This provider does not support getting the supported availability zone metadata."
      "This provider does not support getting the supported availability zone metadata."),
    post_self := self,
    post_args := () }

/-- `validate_availability_zone(self, availability_zone_metadata)`, source
lines 516-532. -/
def ProviderDriver.validate_availability_zone (self : ProviderDriver)
    (availability_zone_metadata : PyVal) : Call PyVal Unit :=
  { outcome := Except.error (exceptions.NotImplementedError
      "This provider does not support validating availability zones."
      "This provider does not support validating the supported availability zone metadata."),
    post_self := self,
    post_args := availability_zone_metadata }

/-- The 28 operations declared on `ProviderDriver`, in source order. -/
inductive OpName where
  | create_vip_port
  | loadbalancer_create
  | loadbalancer_delete
  | loadbalancer_failover
  | loadbalancer_update
  | listener_create
  | listener_delete
  | listener_update
  | pool_create
  | pool_delete
  | pool_update
  | member_create
  | member_delete
  | member_update
  | member_batch_update
  | health_monitor_create
  | health_monitor_delete
  | health_monitor_update
  | l7policy_create
  | l7policy_delete
  | l7policy_update
  | l7rule_create
  | l7rule_delete
  | l7rule_update
  | get_supported_flavor_metadata
  | validate_flavor
  | get_supported_availability_zone_metadata
  | validate_availability_zone
  deriving DecidableEq, Fintype, Repr

/-- Translated from the `:return:` / `:returns:` docstring lines of each
operation: `true` when the line reads "Nothing if the ... was accepted" (or
"Nothing if the ... is valid and supported").  The exceptions in the
source are `create_vip_port` (": returns: VIP dictionary with vip_port_id +
a list of additional VIP dictionaries") and the two metadata queries
(": returns: The ... metadata dictionary"). -/
def returnsNothingOnSuccess : OpName → Bool
  | OpName.create_vip_port => false
  | OpName.get_supported_flavor_metadata => false
  | OpName.get_supported_availability_zone_metadata => false
  | _ => true

/-- The operations of the contract that create, update or delete a
resource: every operation except the failover operation and the four
flavor and availability zone capability operations.  (`member_batch_update`
creates, updates or deletes a set of pool members per its docstring, and
`create_vip_port` creates a port.) -/
def isCreateUpdateDelete : OpName → Bool
  | OpName.loadbalancer_failover => false
  | OpName.get_supported_flavor_metadata => false
  | OpName.validate_flavor => false
  | OpName.get_supported_availability_zone_metadata => false
  | OpName.validate_availability_zone => false
  | _ => true

/-- Translated from the `:raises:` docstring lines: which operations list
the not-found fault (`octavia_lib.api.drivers.exceptions.NotFound`) among
their documented faults.  Only `validate_flavor` (source line 490) does. -/
def documentsNotFound : OpName → Bool
  | OpName.validate_flavor => true
  | _ => false

/-- Translated from the docstrings of the two metadata queries (source
lines 467-468 and 503-504): "The returned dictionary will include key/value
pairs, name and description."  Every other operation documents no success
dictionary keys. -/
def documentedSuccessKeys : OpName → List String
  | OpName.get_supported_flavor_metadata => ["name", "description"]
  | OpName.get_supported_availability_zone_metadata => ["name", "description"]
  | _ => []

/-- True when the call outcome is a raised fault, not a normal return. -/
def didRaise {α : Type} : Except Raised α → Bool
  | Except.error _ => true
  | Except.ok _ => false

/-- True when the call outcome is a raised fault of the
unsupported-operation kind (and in particular not a normal return). -/
def raisesUnsupported {α : Type} : Except Raised α → Bool
  | Except.error f => f.kind == FaultKind.notImplementedError
  | Except.ok _ => false

/-- The kind of the fault raised by a call outcome, if the call raised. -/
def raisedKind {α : Type} : Except Raised α → Option FaultKind
  | Except.error f => some f.kind
  | Except.ok _ => Option.none

/-- True when a raised fault carries two non-empty fault strings
(vacuously true for a normal return). -/
def nonEmptyFaultStrings {α : Type} : Except Raised α → Bool
  | Except.error f =>
      !(f.user_fault_string == "") && !(f.operator_fault_string == "")
  | Except.ok _ => true

/-- True when a raised fault carries two distinct fault strings
(vacuously true for a normal return). -/
def distinctFaultStrings {α : Type} : Except Raised α → Bool
  | Except.error f => !(f.user_fault_string == f.operator_fault_string)
  | Except.ok _ => true

/-- Claim C1: every operation declared on the base `ProviderDriver`
(`create_vip_port`; load balancer create, delete, failover, update;
listener, pool, member, health monitor, l7policy and l7rule create, delete,
update; `member_batch_update`; the flavor and availability zone metadata
and validation operations), invoked with any arguments, raises the
unsupported-operation fault `exceptions.NotImplementedError` (which carries
a `user_fault_string` and an `operator_fault_string`), never raises a fault
of any other kind, and never returns normally. -/
theorem C1_every_op_raises_unsupported (self : ProviderDriver)
    (s1 s2 : String) (v1 v2 : PyVal) (vs1 : List PyVal) (b : Bool) :
    raisesUnsupported (self.create_vip_port s1 s2 v1 vs1).outcome = true ∧
    raisesUnsupported (self.loadbalancer_create v1).outcome = true ∧
    raisesUnsupported (self.loadbalancer_delete v1 b).outcome = true ∧
    raisesUnsupported (self.loadbalancer_failover s1).outcome = true ∧
    raisesUnsupported (self.loadbalancer_update v1 v2).outcome = true ∧
    raisesUnsupported (self.listener_create v1).outcome = true ∧
    raisesUnsupported (self.listener_delete v1).outcome = true ∧
    raisesUnsupported (self.listener_update v1 v2).outcome = true ∧
    raisesUnsupported (self.pool_create v1).outcome = true ∧
    raisesUnsupported (self.pool_delete v1).outcome = true ∧
    raisesUnsupported (self.pool_update v1 v2).outcome = true ∧
    raisesUnsupported (self.member_create v1).outcome = true ∧
    raisesUnsupported (self.member_delete v1).outcome = true ∧
    raisesUnsupported (self.member_update v1 v2).outcome = true ∧
    raisesUnsupported (self.member_batch_update s1 vs1).outcome = true ∧
    raisesUnsupported (self.health_monitor_create v1).outcome = true ∧
    raisesUnsupported (self.health_monitor_delete v1).outcome = true ∧
    raisesUnsupported (self.health_monitor_update v1 v2).outcome = true ∧
    raisesUnsupported (self.l7policy_create v1).outcome = true ∧
    raisesUnsupported (self.l7policy_delete v1).outcome = true ∧
    raisesUnsupported (self.l7policy_update v1 v2).outcome = true ∧
    raisesUnsupported (self.l7rule_create v1).outcome = true ∧
    raisesUnsupported (self.l7rule_delete v1).outcome = true ∧
    raisesUnsupported (self.l7rule_update v1 v2).outcome = true ∧
    raisesUnsupported (self.get_supported_flavor_metadata).outcome = true ∧
    raisesUnsupported (self.validate_flavor v1).outcome = true ∧
    raisesUnsupported (self.get_supported_availability_zone_metadata).outcome = true ∧
    raisesUnsupported (self.validate_availability_zone v1).outcome = true :=
  ⟨rfl, rfl, rfl, rfl, rfl, rfl, rfl, rfl, rfl, rfl, rfl, rfl, rfl, rfl,
   rfl, rfl, rfl, rfl, rfl, rfl, rfl, rfl, rfl, rfl, rfl, rfl, rfl, rfl⟩

/-- Claim C2, counterexample: the fault raised by `loadbalancer_delete` has
its `user_fault_string` equal to its `operator_fault_string` (both read
"This provider does not support deleting load balancers."), so the two
strings of an unsupported-operation fault are not always distinct. -/
theorem C2_counterexample_loadbalancer_delete :
    distinctFaultStrings
      ((ProviderDriver.new).loadbalancer_delete PyVal.none false).outcome
      = false := by
  decide

/-- Claim C2 (amended): for every operation of the base `ProviderDriver`,
the unsupported-operation fault it raises carries two non-empty strings
(`user_fault_string` and `operator_fault_string`); the two strings are not
in general distinct from each other (for many operations, such as
`loadbalancer_delete`, they are equal). -/
theorem C2_fault_strings_non_empty (self : ProviderDriver)
    (s1 s2 : String) (v1 v2 : PyVal) (vs1 : List PyVal) (b : Bool) :
    nonEmptyFaultStrings (self.create_vip_port s1 s2 v1 vs1).outcome = true ∧
    nonEmptyFaultStrings (self.loadbalancer_create v1).outcome = true ∧
    nonEmptyFaultStrings (self.loadbalancer_delete v1 b).outcome = true ∧
    nonEmptyFaultStrings (self.loadbalancer_failover s1).outcome = true ∧
    nonEmptyFaultStrings (self.loadbalancer_update v1 v2).outcome = true ∧
    nonEmptyFaultStrings (self.listener_create v1).outcome = true ∧
    nonEmptyFaultStrings (self.listener_delete v1).outcome = true ∧
    nonEmptyFaultStrings (self.listener_update v1 v2).outcome = true ∧
    nonEmptyFaultStrings (self.pool_create v1).outcome = true ∧
    nonEmptyFaultStrings (self.pool_delete v1).outcome = true ∧
    nonEmptyFaultStrings (self.pool_update v1 v2).outcome = true ∧
    nonEmptyFaultStrings (self.member_create v1).outcome = true ∧
    nonEmptyFaultStrings (self.member_delete v1).outcome = true ∧
    nonEmptyFaultStrings (self.member_update v1 v2).outcome = true ∧
    nonEmptyFaultStrings (self.member_batch_update s1 vs1).outcome = true ∧
    nonEmptyFaultStrings (self.health_monitor_create v1).outcome = true ∧
    nonEmptyFaultStrings (self.health_monitor_delete v1).outcome = true ∧
    nonEmptyFaultStrings (self.health_monitor_update v1 v2).outcome = true ∧
    nonEmptyFaultStrings (self.l7policy_create v1).outcome = true ∧
    nonEmptyFaultStrings (self.l7policy_delete v1).outcome = true ∧
    nonEmptyFaultStrings (self.l7policy_update v1 v2).outcome = true ∧
    nonEmptyFaultStrings (self.l7rule_create v1).outcome = true ∧
    nonEmptyFaultStrings (self.l7rule_delete v1).outcome = true ∧
    nonEmptyFaultStrings (self.l7rule_update v1 v2).outcome = true ∧
    nonEmptyFaultStrings (self.get_supported_flavor_metadata).outcome = true ∧
    nonEmptyFaultStrings (self.validate_flavor v1).outcome = true ∧
    nonEmptyFaultStrings (self.get_supported_availability_zone_metadata).outcome = true ∧
    nonEmptyFaultStrings (self.validate_availability_zone v1).outcome = true :=
  ⟨rfl, rfl, rfl, rfl, rfl, rfl, rfl, rfl, rfl, rfl, rfl, rfl, rfl, rfl,
   rfl, rfl, rfl, rfl, rfl, rfl, rfl, rfl, rfl, rfl, rfl, rfl, rfl, rfl⟩

/-- Claim C3, counterexample: `create_vip_port` is a create operation of
the provider contract, yet its docstring documents a success output — the
VIP dictionary with `vip_port_id` plus the list of additional VIP
dictionaries — not "no return value". -/
theorem C3_counterexample_create_vip_port :
    isCreateUpdateDelete OpName.create_vip_port = true ∧
    returnsNothingOnSuccess OpName.create_vip_port = false := by
  decide

/-- Claim C3 (amended): every create, update and delete operation of the
provider contract other than `create_vip_port` documents no return value on
success (success is signaled solely by returning without raising), while
`create_vip_port` documents returning the VIP dictionary populated with
`vip_port_id` plus a list of additional VIP dictionaries on success. -/
theorem C3_success_returns_nothing :
    (∀ op : OpName, isCreateUpdateDelete op = true →
      op ≠ OpName.create_vip_port → returnsNothingOnSuccess op = true) ∧
    returnsNothingOnSuccess OpName.create_vip_port = false := by
  constructor
  · decide
  · decide

/-- Witness for the amended claim C3, at the concrete create operation
`loadbalancer_create`. -/
theorem C3_success_returns_nothing_witness :
    returnsNothingOnSuccess OpName.loadbalancer_create = true :=
  C3_success_returns_nothing.1 OpName.loadbalancer_create (by decide)
    (by decide)

/-- Claim C4: among the operations of the provider contract, only
`validate_flavor` documents the not-found fault in its `:raises:` lines,
and no operation of the base `ProviderDriver` ever raises it: the fault
each operation raises, on any arguments, has kind `notImplementedError`,
which is a different kind from `notFound`. -/
theorem C4_not_found_only_validate_flavor (self : ProviderDriver)
    (s1 s2 : String) (v1 v2 : PyVal) (vs1 : List PyVal) (b : Bool) :
    (∀ op : OpName, documentsNotFound op = true ↔ op = OpName.validate_flavor) ∧
    (FaultKind.notImplementedError == FaultKind.notFound) = false ∧
    raisedKind (self.create_vip_port s1 s2 v1 vs1).outcome = some FaultKind.notImplementedError ∧
    raisedKind (self.loadbalancer_create v1).outcome = some FaultKind.notImplementedError ∧
    raisedKind (self.loadbalancer_delete v1 b).outcome = some FaultKind.notImplementedError ∧
    raisedKind (self.loadbalancer_failover s1).outcome = some FaultKind.notImplementedError ∧
    raisedKind (self.loadbalancer_update v1 v2).outcome = some FaultKind.notImplementedError ∧
    raisedKind (self.listener_create v1).outcome = some FaultKind.notImplementedError ∧
    raisedKind (self.listener_delete v1).outcome = some FaultKind.notImplementedError ∧
    raisedKind (self.listener_update v1 v2).outcome = some FaultKind.notImplementedError ∧
    raisedKind (self.pool_create v1).outcome = some FaultKind.notImplementedError ∧
    raisedKind (self.pool_delete v1).outcome = some FaultKind.notImplementedError ∧
    raisedKind (self.pool_update v1 v2).outcome = some FaultKind.notImplementedError ∧
    raisedKind (self.member_create v1).outcome = some FaultKind.notImplementedError ∧
    raisedKind (self.member_delete v1).outcome = some FaultKind.notImplementedError ∧
    raisedKind (self.member_update v1 v2).outcome = some FaultKind.notImplementedError ∧
    raisedKind (self.member_batch_update s1 vs1).outcome = some FaultKind.notImplementedError ∧
    raisedKind (self.health_monitor_create v1).outcome = some FaultKind.notImplementedError ∧
    raisedKind (self.health_monitor_delete v1).outcome = some FaultKind.notImplementedError ∧
    raisedKind (self.health_monitor_update v1 v2).outcome = some FaultKind.notImplementedError ∧
    raisedKind (self.l7policy_create v1).outcome = some FaultKind.notImplementedError ∧
    raisedKind (self.l7policy_delete v1).outcome = some FaultKind.notImplementedError ∧
    raisedKind (self.l7policy_update v1 v2).outcome = some FaultKind.notImplementedError ∧
    raisedKind (self.l7rule_create v1).outcome = some FaultKind.notImplementedError ∧
    raisedKind (self.l7rule_delete v1).outcome = some FaultKind.notImplementedError ∧
    raisedKind (self.l7rule_update v1 v2).outcome = some FaultKind.notImplementedError ∧
    raisedKind (self.get_supported_flavor_metadata).outcome = some FaultKind.notImplementedError ∧
    raisedKind (self.validate_flavor v1).outcome = some FaultKind.notImplementedError ∧
    raisedKind (self.get_supported_availability_zone_metadata).outcome = some FaultKind.notImplementedError ∧
    raisedKind (self.validate_availability_zone v1).outcome = some FaultKind.notImplementedError :=
  ⟨by decide, by decide, rfl, rfl, rfl, rfl, rfl, rfl, rfl, rfl, rfl, rfl,
   rfl, rfl, rfl, rfl, rfl, rfl, rfl, rfl, rfl, rfl, rfl, rfl, rfl, rfl,
   rfl, rfl, rfl, rfl⟩

/-- Claim C5: for every pool id, `member_batch_update` on the base
`ProviderDriver` yields the same outcome — same fault kind, same
`user_fault_string`, same `operator_fault_string` — for the empty member
list as for any other member list: emptiness of the member set alone never
produces a distinct fault. -/
theorem C5_batch_update_empty_not_distinct (self : ProviderDriver)
    (pool_id : String) (members : List PyVal) :
    (self.member_batch_update pool_id []).outcome =
      (self.member_batch_update pool_id members).outcome :=
  rfl

/-- Claim C6: the flavor and availability zone metadata queries document
the keys `name` and `description` for the dictionary they return on
success, and the base implementations never return successfully (every
call raises), so every successful return satisfies the key guarantee. -/
theorem C6_metadata_success_keys (self : ProviderDriver) :
    documentedSuccessKeys OpName.get_supported_flavor_metadata =
      ["name", "description"] ∧
    documentedSuccessKeys OpName.get_supported_availability_zone_metadata =
      ["name", "description"] ∧
    didRaise (self.get_supported_flavor_metadata).outcome = true ∧
    didRaise (self.get_supported_availability_zone_metadata).outcome = true :=
  ⟨rfl, rfl, rfl, rfl⟩

/-- Claim C7: every fault raised by an operation of the base
`ProviderDriver` is terminal and atomic for the call: the single invocation
raises exactly one fault as its entire outcome (the outcome is a raised
fault, so there is no partial success and no normal return), and the call
leaves the driver state (`self`) and every argument exactly as they were
before the call. -/
theorem C7_faults_terminal_and_atomic (self : ProviderDriver)
    (s1 s2 : String) (v1 v2 : PyVal) (vs1 : List PyVal) (b : Bool) :
    (didRaise (self.create_vip_port s1 s2 v1 vs1).outcome = true ∧
      (self.create_vip_port s1 s2 v1 vs1).post_self = self ∧
      (self.create_vip_port s1 s2 v1 vs1).post_args = (s1, s2, v1, vs1)) ∧
    (didRaise (self.loadbalancer_create v1).outcome = true ∧
      (self.loadbalancer_create v1).post_self = self ∧
      (self.loadbalancer_create v1).post_args = v1) ∧
    (didRaise (self.loadbalancer_delete v1 b).outcome = true ∧
      (self.loadbalancer_delete v1 b).post_self = self ∧
      (self.loadbalancer_delete v1 b).post_args = (v1, b)) ∧
    (didRaise (self.loadbalancer_failover s1).outcome = true ∧
      (self.loadbalancer_failover s1).post_self = self ∧
      (self.loadbalancer_failover s1).post_args = s1) ∧
    (didRaise (self.loadbalancer_update v1 v2).outcome = true ∧
      (self.loadbalancer_update v1 v2).post_self = self ∧
      (self.loadbalancer_update v1 v2).post_args = (v1, v2)) ∧
    (didRaise (self.listener_create v1).outcome = true ∧
      (self.listener_create v1).post_self = self ∧
      (self.listener_create v1).post_args = v1) ∧
    (didRaise (self.listener_delete v1).outcome = true ∧
      (self.listener_delete v1).post_self = self ∧
      (self.listener_delete v1).post_args = v1) ∧
    (didRaise (self.listener_update v1 v2).outcome = true ∧
      (self.listener_update v1 v2).post_self = self ∧
      (self.listener_update v1 v2).post_args = (v1, v2)) ∧
    (didRaise (self.pool_create v1).outcome = true ∧
      (self.pool_create v1).post_self = self ∧
      (self.pool_create v1).post_args = v1) ∧
    (didRaise (self.pool_delete v1).outcome = true ∧
      (self.pool_delete v1).post_self = self ∧
      (self.pool_delete v1).post_args = v1) ∧
    (didRaise (self.pool_update v1 v2).outcome = true ∧
      (self.pool_update v1 v2).post_self = self ∧
      (self.pool_update v1 v2).post_args = (v1, v2)) ∧
    (didRaise (self.member_create v1).outcome = true ∧
      (self.member_create v1).post_self = self ∧
      (self.member_create v1).post_args = v1) ∧
    (didRaise (self.member_delete v1).outcome = true ∧
      (self.member_delete v1).post_self = self ∧
      (self.member_delete v1).post_args = v1) ∧
    (didRaise (self.member_update v1 v2).outcome = true ∧
      (self.member_update v1 v2).post_self = self ∧
      (self.member_update v1 v2).post_args = (v1, v2)) ∧
    (didRaise (self.member_batch_update s1 vs1).outcome = true ∧
      (self.member_batch_update s1 vs1).post_self = self ∧
      (self.member_batch_update s1 vs1).post_args = (s1, vs1)) ∧
    (didRaise (self.health_monitor_create v1).outcome = true ∧
      (self.health_monitor_create v1).post_self = self ∧
      (self.health_monitor_create v1).post_args = v1) ∧
    (didRaise (self.health_monitor_delete v1).outcome = true ∧
      (self.health_monitor_delete v1).post_self = self ∧
      (self.health_monitor_delete v1).post_args = v1) ∧
    (didRaise (self.health_monitor_update v1 v2).outcome = true ∧
      (self.health_monitor_update v1 v2).post_self = self ∧
      (self.health_monitor_update v1 v2).post_args = (v1, v2)) ∧
    (didRaise (self.l7policy_create v1).outcome = true ∧
      (self.l7policy_create v1).post_self = self ∧
      (self.l7policy_create v1).post_args = v1) ∧
    (didRaise (self.l7policy_delete v1).outcome = true ∧
      (self.l7policy_delete v1).post_self = self ∧
      (self.l7policy_delete v1).post_args = v1) ∧
    (didRaise (self.l7policy_update v1 v2).outcome = true ∧
      (self.l7policy_update v1 v2).post_self = self ∧
      (self.l7policy_update v1 v2).post_args = (v1, v2)) ∧
    (didRaise (self.l7rule_create v1).outcome = true ∧
      (self.l7rule_create v1).post_self = self ∧
      (self.l7rule_create v1).post_args = v1) ∧
    (didRaise (self.l7rule_delete v1).outcome = true ∧
      (self.l7rule_delete v1).post_self = self ∧
      (self.l7rule_delete v1).post_args = v1) ∧
    (didRaise (self.l7rule_update v1 v2).outcome = true ∧
      (self.l7rule_update v1 v2).post_self = self ∧
      (self.l7rule_update v1 v2).post_args = (v1, v2)) ∧
    (didRaise (self.get_supported_flavor_metadata).outcome = true ∧
      (self.get_supported_flavor_metadata).post_self = self ∧
      (self.get_supported_flavor_metadata).post_args = ()) ∧
    (didRaise (self.validate_flavor v1).outcome = true ∧
      (self.validate_flavor v1).post_self = self ∧
      (self.validate_flavor v1).post_args = v1) ∧
    (didRaise (self.get_supported_availability_zone_metadata).outcome = true ∧
      (self.get_supported_availability_zone_metadata).post_self = self ∧
      (self.get_supported_availability_zone_metadata).post_args = ()) ∧
    (didRaise (self.validate_availability_zone v1).outcome = true ∧
      (self.validate_availability_zone v1).post_self = self ∧
      (self.validate_availability_zone v1).post_args = v1) := by
  and_intros <;> rfl

/-- Claim C8: a freshly constructed `ProviderDriver` has its class
attribute `name = None`, and no operation reads or modifies `name`: every
operation preserves the value of `name` in the post-call state of `self`,
and produces the same outcome for any two values of `name`; so `name` is
`None` both before and after any invocation on a fresh driver. -/
theorem C8_name_none_and_untouched (n n2 : PyVal) (s1 s2 : String)
    (v1 v2 : PyVal) (vs1 : List PyVal) (b : Bool) :
    ProviderDriver.new.name = PyVal.none ∧
    (((ProviderDriver.mk n).create_vip_port s1 s2 v1 vs1).post_self.name = n ∧
      ((ProviderDriver.mk n).create_vip_port s1 s2 v1 vs1).outcome =
        ((ProviderDriver.mk n2).create_vip_port s1 s2 v1 vs1).outcome) ∧
    (((ProviderDriver.mk n).loadbalancer_create v1).post_self.name = n ∧
      ((ProviderDriver.mk n).loadbalancer_create v1).outcome =
        ((ProviderDriver.mk n2).loadbalancer_create v1).outcome) ∧
    (((ProviderDriver.mk n).loadbalancer_delete v1 b).post_self.name = n ∧
      ((ProviderDriver.mk n).loadbalancer_delete v1 b).outcome =
        ((ProviderDriver.mk n2).loadbalancer_delete v1 b).outcome) ∧
    (((ProviderDriver.mk n).loadbalancer_failover s1).post_self.name = n ∧
      ((ProviderDriver.mk n).loadbalancer_failover s1).outcome =
        ((ProviderDriver.mk n2).loadbalancer_failover s1).outcome) ∧
    (((ProviderDriver.mk n).loadbalancer_update v1 v2).post_self.name = n ∧
      ((ProviderDriver.mk n).loadbalancer_update v1 v2).outcome =
        ((ProviderDriver.mk n2).loadbalancer_update v1 v2).outcome) ∧
    (((ProviderDriver.mk n).listener_create v1).post_self.name = n ∧
      ((ProviderDriver.mk n).listener_create v1).outcome =
        ((ProviderDriver.mk n2).listener_create v1).outcome) ∧
    (((ProviderDriver.mk n).listener_delete v1).post_self.name = n ∧
      ((ProviderDriver.mk n).listener_delete v1).outcome =
        ((ProviderDriver.mk n2).listener_delete v1).outcome) ∧
    (((ProviderDriver.mk n).listener_update v1 v2).post_self.name = n ∧
      ((ProviderDriver.mk n).listener_update v1 v2).outcome =
        ((ProviderDriver.mk n2).listener_update v1 v2).outcome) ∧
    (((ProviderDriver.mk n).pool_create v1).post_self.name = n ∧
      ((ProviderDriver.mk n).pool_create v1).outcome =
        ((ProviderDriver.mk n2).pool_create v1).outcome) ∧
    (((ProviderDriver.mk n).pool_delete v1).post_self.name = n ∧
      ((ProviderDriver.mk n).pool_delete v1).outcome =
        ((ProviderDriver.mk n2).pool_delete v1).outcome) ∧
    (((ProviderDriver.mk n).pool_update v1 v2).post_self.name = n ∧
      ((ProviderDriver.mk n).pool_update v1 v2).outcome =
        ((ProviderDriver.mk n2).pool_update v1 v2).outcome) ∧
    (((ProviderDriver.mk n).member_create v1).post_self.name = n ∧
      ((ProviderDriver.mk n).member_create v1).outcome =
        ((ProviderDriver.mk n2).member_create v1).outcome) ∧
    (((ProviderDriver.mk n).member_delete v1).post_self.name = n ∧
      ((ProviderDriver.mk n).member_delete v1).outcome =
        ((ProviderDriver.mk n2).member_delete v1).outcome) ∧
    (((ProviderDriver.mk n).member_update v1 v2).post_self.name = n ∧
      ((ProviderDriver.mk n).member_update v1 v2).outcome =
        ((ProviderDriver.mk n2).member_update v1 v2).outcome) ∧
    (((ProviderDriver.mk n).member_batch_update s1 vs1).post_self.name = n ∧
      ((ProviderDriver.mk n).member_batch_update s1 vs1).outcome =
        ((ProviderDriver.mk n2).member_batch_update s1 vs1).outcome) ∧
    (((ProviderDriver.mk n).health_monitor_create v1).post_self.name = n ∧
      ((ProviderDriver.mk n).health_monitor_create v1).outcome =
        ((ProviderDriver.mk n2).health_monitor_create v1).outcome) ∧
    (((ProviderDriver.mk n).health_monitor_delete v1).post_self.name = n ∧
      ((ProviderDriver.mk n).health_monitor_delete v1).outcome =
        ((ProviderDriver.mk n2).health_monitor_delete v1).outcome) ∧
    (((ProviderDriver.mk n).health_monitor_update v1 v2).post_self.name = n ∧
      ((ProviderDriver.mk n).health_monitor_update v1 v2).outcome =
        ((ProviderDriver.mk n2).health_monitor_update v1 v2).outcome) ∧
    (((ProviderDriver.mk n).l7policy_create v1).post_self.name = n ∧
      ((ProviderDriver.mk n).l7policy_create v1).outcome =
        ((ProviderDriver.mk n2).l7policy_create v1).outcome) ∧
    (((ProviderDriver.mk n).l7policy_delete v1).post_self.name = n ∧
      ((ProviderDriver.mk n).l7policy_delete v1).outcome =
        ((ProviderDriver.mk n2).l7policy_delete v1).outcome) ∧
    (((ProviderDriver.mk n).l7policy_update v1 v2).post_self.name = n ∧
      ((ProviderDriver.mk n).l7policy_update v1 v2).outcome =
        ((ProviderDriver.mk n2).l7policy_update v1 v2).outcome) ∧
    (((ProviderDriver.mk n).l7rule_create v1).post_self.name = n ∧
      ((ProviderDriver.mk n).l7rule_create v1).outcome =
        ((ProviderDriver.mk n2).l7rule_create v1).outcome) ∧
    (((ProviderDriver.mk n).l7rule_delete v1).post_self.name = n ∧
      ((ProviderDriver.mk n).l7rule_delete v1).outcome =
        ((ProviderDriver.mk n2).l7rule_delete v1).outcome) ∧
    (((ProviderDriver.mk n).l7rule_update v1 v2).post_self.name = n ∧
      ((ProviderDriver.mk n).l7rule_update v1 v2).outcome =
        ((ProviderDriver.mk n2).l7rule_update v1 v2).outcome) ∧
    (((ProviderDriver.mk n).get_supported_flavor_metadata).post_self.name = n ∧
      ((ProviderDriver.mk n).get_supported_flavor_metadata).outcome =
        ((ProviderDriver.mk n2).get_supported_flavor_metadata).outcome) ∧
    (((ProviderDriver.mk n).validate_flavor v1).post_self.name = n ∧
      ((ProviderDriver.mk n).validate_flavor v1).outcome =
        ((ProviderDriver.mk n2).validate_flavor v1).outcome) ∧
    (((ProviderDriver.mk n).get_supported_availability_zone_metadata).post_self.name = n ∧
      ((ProviderDriver.mk n).get_supported_availability_zone_metadata).outcome =
        ((ProviderDriver.mk n2).get_supported_availability_zone_metadata).outcome) ∧
    (((ProviderDriver.mk n).validate_availability_zone v1).post_self.name = n ∧
      ((ProviderDriver.mk n).validate_availability_zone v1).outcome =
        ((ProviderDriver.mk n2).validate_availability_zone v1).outcome) := by
  and_intros <;> rfl

/-- Claim C9: every operation of the base `ProviderDriver` is deterministic
and its outcome is independent of its argument values: any two invocations
of the same operation, with equal or differing arguments (and on any two
driver instances), produce faults with the same kind, the same
`user_fault_string` and the same `operator_fault_string` — their outcomes
are equal. -/
theorem C9_outcome_independent_of_arguments (self self2 : ProviderDriver)
    (s1 s2 t1 t2 : String) (v1 v2 w1 w2 : PyVal) (vs1 ws1 : List PyVal)
    (b b2 : Bool) :
    (self.create_vip_port s1 s2 v1 vs1).outcome =
      (self2.create_vip_port t1 t2 w1 ws1).outcome ∧
    (self.loadbalancer_create v1).outcome =
      (self2.loadbalancer_create w1).outcome ∧
    (self.loadbalancer_delete v1 b).outcome =
      (self2.loadbalancer_delete w1 b2).outcome ∧
    (self.loadbalancer_failover s1).outcome =
      (self2.loadbalancer_failover t1).outcome ∧
    (self.loadbalancer_update v1 v2).outcome =
      (self2.loadbalancer_update w1 w2).outcome ∧
    (self.listener_create v1).outcome =
      (self2.listener_create w1).outcome ∧
    (self.listener_delete v1).outcome =
      (self2.listener_delete w1).outcome ∧
    (self.listener_update v1 v2).outcome =
      (self2.listener_update w1 w2).outcome ∧
    (self.pool_create v1).outcome =
      (self2.pool_create w1).outcome ∧
    (self.pool_delete v1).outcome =
      (self2.pool_delete w1).outcome ∧
    (self.pool_update v1 v2).outcome =
      (self2.pool_update w1 w2).outcome ∧
    (self.member_create v1).outcome =
      (self2.member_create w1).outcome ∧
    (self.member_delete v1).outcome =
      (self2.member_delete w1).outcome ∧
    (self.member_update v1 v2).outcome =
      (self2.member_update w1 w2).outcome ∧
    (self.member_batch_update s1 vs1).outcome =
      (self2.member_batch_update t1 ws1).outcome ∧
    (self.health_monitor_create v1).outcome =
      (self2.health_monitor_create w1).outcome ∧
    (self.health_monitor_delete v1).outcome =
      (self2.health_monitor_delete w1).outcome ∧
    (self.health_monitor_update v1 v2).outcome =
      (self2.health_monitor_update w1 w2).outcome ∧
    (self.l7policy_create v1).outcome =
      (self2.l7policy_create w1).outcome ∧
    (self.l7policy_delete v1).outcome =
      (self2.l7policy_delete w1).outcome ∧
    (self.l7policy_update v1 v2).outcome =
      (self2.l7policy_update w1 w2).outcome ∧
    (self.l7rule_create v1).outcome =
      (self2.l7rule_create w1).outcome ∧
    (self.l7rule_delete v1).outcome =
      (self2.l7rule_delete w1).outcome ∧
    (self.l7rule_update v1 v2).outcome =
      (self2.l7rule_update w1 w2).outcome ∧
    (self.get_supported_flavor_metadata).outcome =
      (self2.get_supported_flavor_metadata).outcome ∧
    (self.validate_flavor v1).outcome =
      (self2.validate_flavor w1).outcome ∧
    (self.get_supported_availability_zone_metadata).outcome =
      (self2.get_supported_availability_zone_metadata).outcome ∧
    (self.validate_availability_zone v1).outcome =
      (self2.validate_availability_zone w1).outcome := by
  and_intros <;> rfl

/-- Claim C10: no operation of the base `ProviderDriver` mutates any of its
arguments: for every invocation, every domain object, dictionary, list and
identifier passed in is unchanged (the post-call argument tuple equals the
input argument tuple) when the call raises — which it always does. -/
theorem C10_no_argument_mutation (self : ProviderDriver)
    (s1 s2 : String) (v1 v2 : PyVal) (vs1 : List PyVal) (b : Bool) :
    (self.create_vip_port s1 s2 v1 vs1).post_args = (s1, s2, v1, vs1) ∧
    (self.loadbalancer_create v1).post_args = v1 ∧
    (self.loadbalancer_delete v1 b).post_args = (v1, b) ∧
    (self.loadbalancer_failover s1).post_args = s1 ∧
    (self.loadbalancer_update v1 v2).post_args = (v1, v2) ∧
    (self.listener_create v1).post_args = v1 ∧
    (self.listener_delete v1).post_args = v1 ∧
    (self.listener_update v1 v2).post_args = (v1, v2) ∧
    (self.pool_create v1).post_args = v1 ∧
    (self.pool_delete v1).post_args = v1 ∧
    (self.pool_update v1 v2).post_args = (v1, v2) ∧
    (self.member_create v1).post_args = v1 ∧
    (self.member_delete v1).post_args = v1 ∧
    (self.member_update v1 v2).post_args = (v1, v2) ∧
    (self.member_batch_update s1 vs1).post_args = (s1, vs1) ∧
    (self.health_monitor_create v1).post_args = v1 ∧
    (self.health_monitor_delete v1).post_args = v1 ∧
    (self.health_monitor_update v1 v2).post_args = (v1, v2) ∧
    (self.l7policy_create v1).post_args = v1 ∧
    (self.l7policy_delete v1).post_args = v1 ∧
    (self.l7policy_update v1 v2).post_args = (v1, v2) ∧
    (self.l7rule_create v1).post_args = v1 ∧
    (self.l7rule_delete v1).post_args = v1 ∧
    (self.l7rule_update v1 v2).post_args = (v1, v2) ∧
    (self.get_supported_flavor_metadata).post_args = () ∧
    (self.validate_flavor v1).post_args = v1 ∧
    (self.get_supported_availability_zone_metadata).post_args = () ∧
    (self.validate_availability_zone v1).post_args = v1 := by
  and_intros <;> rfl
